import Mathlib

/-!
Verification of the triangle-test statistical decision engine
(`src/utils/statistics.ts` and the constants / report builder module).

The numeric functions are embedded over exact rationals (`ℚ`): the source
computes the binomial point probability through log-space combinatorics and
`Math.exp`, a floating-point realisation of the exact value
`C(n,k) * p^k * (1-p)^(n-k)`; the embedding uses that exact value directly.
All integer quantities (sample sizes, counts, thresholds) are `Int`, matching
the integer-valued JavaScript numbers the code manipulates.
-/

/-- Embedding of `binomProb(n, k, p)` from `src/utils/statistics.ts`.
The two guard branches are verbatim; the general branch is the exact value the
log-space computation realises. -/
def binomProb (n k : Int) (p : ℚ) : ℚ :=
  if k < 0 ∨ k > n then 0
  else if p ≤ 0 ∨ p ≥ 1 then (if k = (if p ≥ 1 then n else 0) then 1 else 0)
  else (Nat.choose n.toNat k.toNat : ℚ) * p ^ k.toNat * (1 - p) ^ (n - k).toNat

/-- Embedding of `binomTail(n, k, p)`: the loop `for (i = k; i <= n; i++)`
summing `binomProb(n, i, p)`; empty when `k > n`. -/
def binomTail (n k : Int) (p : ℚ) : ℚ :=
  ((List.range (n - k + 1).toNat).map (fun j => binomProb n (k + (j : Int)) p)).sum

/-- The search loop inside `getSignificanceThreshold`: starting at count `k`,
with `fuel` iterations remaining, return the first count whose tail
probability is at most `alpha`, and `n + 1` once the loop is exhausted. -/
def sigSearch (n : Int) (alpha p : ℚ) : Nat → Nat → Int
  | 0, _ => n + 1
  | fuel + 1, k => if binomTail n (k : Int) p ≤ alpha then (k : Int) else sigSearch n alpha p fuel (k + 1)

/-- Embedding of `getSignificanceThreshold(n, alpha = 0.05, p = 0.3)`:
`0` for `n <= 0`, otherwise the loop `for (k = 0; k <= n; k++)` returning the
first `k` with `binomTail(n, k, p) <= alpha`, and `n + 1` if none is found. -/
def getSignificanceThreshold (n : Int) (alpha p : ℚ) : Int :=
  if n ≤ 0 then 0 else sigSearch n alpha p (n.toNat + 1) 0

/-- Embedding of `clampSampleSize(n, minN, maxN)`. -/
def clampSampleSize (n minN maxN : Int) : Int :=
  if n ≤ minN then minN
  else if n ≥ maxN then maxN
  else n

/- ===== Constants module (`constants.ts`, in the unnamed part) ===== -/

def FACTORY_MIN_N : Int := 36
def FACTORY_MAX_N : Int := 54
def FACTORY_BASE_THRESHOLD : Int := 18

/-- `FACTORY_DIFF_THRESHOLD_TABLE`: `Record<number, number>` embedded as an
association list with `List.lookup`. -/
def FACTORY_DIFF_THRESHOLD_TABLE : List (Int × Int) :=
  [(37, 18), (38, 18), (39, 18), (40, 19), (41, 19), (42, 20), (43, 20),
   (44, 20), (45, 21), (46, 21), (47, 21), (48, 22), (49, 22), (50, 23),
   (51, 23), (52, 23), (53, 24), (54, 24)]

def ALT_MIN_N : Int := 42
def ALT_MAX_N : Int := 54
def ALT_BASE_MAX_ALLOWED : Int := 16

/-- `ALT_SIMILARITY_MAX_TABLE`: maximum allowed correct counts for the
similarity test, 43..54. -/
def ALT_SIMILARITY_MAX_TABLE : List (Int × Int) :=
  [(43, 17), (44, 18), (45, 18), (46, 19), (47, 19), (48, 20), (49, 20),
   (50, 20), (51, 21), (52, 21), (53, 22), (54, 22)]

/-- One entry of `TEST_TYPE_RULES`. -/
structure TestTypeRule where
  groupSize : Int
  alpha : ℚ
  name : String
  p : ℚ
deriving Repr, DecidableEq

/-- `TEST_TYPE_RULES`: a two-key record, embedded as a partial map from the
type-selector string. -/
def TEST_TYPE_RULES (s : String) : Option TestTypeRule :=
  if s = "备选测试" then some ⟨7, 5/100, "备选测试 (α=0.05)", 2/10⟩
  else if s = "工厂样品" then some ⟨6, 1/10, "工厂样品 (α=0.10)", 1/3⟩
  else none

def DEFAULT_STAT_TEST_TYPE : String := "备选测试"

/-- Embedding of `getThresholdByType(statTestType, sampleSize)`.
The `??` fallback chains become `Option.getD` of the nested lookups. -/
def getThresholdByType (statTestType : String) (sampleSize : Int) : Int :=
  if statTestType = "工厂样品" then
    let n := clampSampleSize sampleSize FACTORY_MIN_N FACTORY_MAX_N
    if n ≤ FACTORY_MIN_N then FACTORY_BASE_THRESHOLD
    else (FACTORY_DIFF_THRESHOLD_TABLE.lookup n).getD
      ((FACTORY_DIFF_THRESHOLD_TABLE.lookup FACTORY_MAX_N).getD FACTORY_BASE_THRESHOLD)
  else
    let n := clampSampleSize sampleSize ALT_MIN_N ALT_MAX_N
    if n ≤ ALT_MIN_N then ALT_BASE_MAX_ALLOWED + 1
    else ((ALT_SIMILARITY_MAX_TABLE.lookup n).getD
      ((ALT_SIMILARITY_MAX_TABLE.lookup ALT_MAX_N).getD ALT_BASE_MAX_ALLOWED)) + 1

/-- Embedding of `getAlphaByType(statTestType)`. -/
def getAlphaByType (statTestType : String) : ℚ :=
  ((TEST_TYPE_RULES statTestType).map TestTypeRule.alpha).getD (5/100)

/- ===== Report builder (`buildStatReport` module) ===== -/

/-- The six fixed group labels (`GroupKey`). -/
inductive GroupKey
  | A1 | A2 | A3 | B1 | B2 | B3
deriving Repr, DecidableEq

/-- `StatRecord` from `types.ts`; optional fields become `Option`. -/
structure StatRecord where
  recordId : String
  testName : String
  groupKey : GroupKey
  answer : String
  correct : String
  modifier : Option String
  feedback : Option String
  updatedAt : Option Int
  createdAt : Option Int
deriving Repr, DecidableEq

/-- `StatReportParams`. -/
structure StatReportParams where
  selectedStatRecords : List StatRecord
  statTestType : String
  statGroupSize : Int
  statCountWarning : String
  selectedTestName : String
  statSampleName : String

/-- `StatReportResult`; the `md` field (a markdown rendering of the same
quantities, pure string assembly) is not modelled. -/
structure StatReportResult where
  status : Option String
  error : Option String
  pass : Option Bool
deriving Repr, DecidableEq

/-- `totalPeople = records.length`. -/
def totalPeople (records : List StatRecord) : Int :=
  (records.length : Int)

/-- `correctCount = records.filter(r => r.answer === r.correct).length`. -/
def correctCount (records : List StatRecord) : Int :=
  ((records.filter (fun r => r.answer == r.correct)).length : Int)

/-- `expectedPerGroup = Math.max(statGroupSize, typeRule?.groupSize ?? 0)`. -/
def expectedPerGroup (statTestType : String) (statGroupSize : Int) : Int :=
  max statGroupSize (((TEST_TYPE_RULES statTestType).map TestTypeRule.groupSize).getD 0)

/-- `expectedTotalByRule = Math.max(0, expectedPerGroup) * 6`. -/
def expectedTotalByRule (statTestType : String) (statGroupSize : Int) : Int :=
  max 0 (expectedPerGroup statTestType statGroupSize) * 6

/-- `countShortage = expectedTotalByRule > 0 && totalPeople < expectedTotalByRule`. -/
def countShortage (records : List StatRecord) (statTestType : String) (statGroupSize : Int) : Bool :=
  decide (0 < expectedTotalByRule statTestType statGroupSize) &&
    decide (totalPeople records < expectedTotalByRule statTestType statGroupSize)

/-- `countMismatch = expectedTotalByRule > 0 && totalPeople !== expectedTotalByRule`. -/
def countMismatch (records : List StatRecord) (statTestType : String) (statGroupSize : Int) : Bool :=
  decide (0 < expectedTotalByRule statTestType statGroupSize) &&
    !decide (totalPeople records = expectedTotalByRule statTestType statGroupSize)

/-- `minSampleLimit = statTestType === '工厂样品' ? FACTORY_MIN_N : ALT_MIN_N`. -/
def minSampleLimit (statTestType : String) : Int :=
  if statTestType = "工厂样品" then FACTORY_MIN_N else ALT_MIN_N

/-- `maxSampleLimit = statTestType === '工厂样品' ? FACTORY_MAX_N : ALT_MAX_N`. -/
def maxSampleLimit (statTestType : String) : Int :=
  if statTestType = "工厂样品" then FACTORY_MAX_N else ALT_MAX_N

/-- `baseBeforeClamp = expectedTotalByRule > 0 ? Math.max(expectedTotalByRule, totalPeople) : totalPeople`. -/
def baseBeforeClamp (records : List StatRecord) (statTestType : String) (statGroupSize : Int) : Int :=
  if 0 < expectedTotalByRule statTestType statGroupSize then
    max (expectedTotalByRule statTestType statGroupSize) (totalPeople records)
  else totalPeople records

/-- `thresholdBase = clampSampleSize(baseBeforeClamp, minSampleLimit, maxSampleLimit)`. -/
def thresholdBase (records : List StatRecord) (statTestType : String) (statGroupSize : Int) : Int :=
  clampSampleSize (baseBeforeClamp records statTestType statGroupSize)
    (minSampleLimit statTestType) (maxSampleLimit statTestType)

/-- `threshold = getThresholdByType(statTestType, thresholdBase)`. -/
def reportThreshold (records : List StatRecord) (statTestType : String) (statGroupSize : Int) : Int :=
  getThresholdByType statTestType (thresholdBase records statTestType statGroupSize)

/-- `insufficient = totalPeople < threshold`. -/
def insufficient (records : List StatRecord) (statTestType : String) (statGroupSize : Int) : Bool :=
  decide (totalPeople records < reportThreshold records statTestType statGroupSize)

/-- `significant = !insufficient && correctCount >= threshold`. -/
def significant (records : List StatRecord) (statTestType : String) (statGroupSize : Int) : Bool :=
  !insufficient records statTestType statGroupSize &&
    decide (reportThreshold records statTestType statGroupSize ≤ correctCount records)

/-- `passByRule = !significant`. -/
def passByRule (records : List StatRecord) (statTestType : String) (statGroupSize : Int) : Bool :=
  !significant records statTestType statGroupSize

/-- `pass = !countShortage && passByRule`. -/
def reportPass (records : List StatRecord) (statTestType : String) (statGroupSize : Int) : Bool :=
  !countShortage records statTestType statGroupSize && passByRule records statTestType statGroupSize

/-- Embedding of `buildStatReport`: the empty-records guard returns the error
result; otherwise the status string and the `pass` verdict are produced
(the markdown body is not modelled). -/
def buildStatReport (ps : StatReportParams) : StatReportResult :=
  if ps.selectedStatRecords.length = 0 then
    ⟨none, some "当前选择的测试无记录，请先读取数据或切换测试名称。", none⟩
  else
    ⟨some (if ps.statCountWarning = "" then "报告已生成，可复制为 MD"
           else ps.statCountWarning ++ " 已生成报告，可复制为 MD"),
     none,
     some (reportPass ps.selectedStatRecords ps.statTestType ps.statGroupSize)⟩

/- ===== Theorems ===== -/

/-- Claim C2: the threshold lookup returns 18 at factory sample size 36,
19 at 40, and 17 at similarity sample size 42, 21 at 48. -/
theorem threshold_concrete_values :
    getThresholdByType "工厂样品" 36 = 18 ∧ getThresholdByType "工厂样品" 40 = 19 ∧
    getThresholdByType "备选测试" 42 = 17 ∧ getThresholdByType "备选测试" 48 = 21 := by
  refine ⟨rfl, rfl, rfl, rfl⟩

/-- Claim C7 counterexample: for `n = 5, lo = 10, hi = 3` the clamp result is
10, violating `lo ≤ result ≤ hi`, so the claim fails as stated for
unconstrained bounds. -/
theorem clamp_claim_counterexample :
    ¬ ((10 : Int) ≤ clampSampleSize 5 10 3 ∧ clampSampleSize 5 10 3 ≤ 3) := by
  decide

/-- Claim C7 (amended): when `lo ≤ hi` the result of `clampSampleSize n lo hi`
lies in `[lo, hi]`, and for all bounds the result equals `n` whenever
`lo ≤ n ≤ hi`. -/
theorem clampSampleSize_spec (n lo hi : Int) :
    (lo ≤ hi → lo ≤ clampSampleSize n lo hi ∧ clampSampleSize n lo hi ≤ hi) ∧
    (lo ≤ n → n ≤ hi → clampSampleSize n lo hi = n) := by
  unfold clampSampleSize
  split_ifs <;> omega

/-- Witness for the amended C7 at `n = 5, lo = 3, hi = 10`. -/
theorem clampSampleSize_spec_witness :
    ((3 : Int) ≤ clampSampleSize 5 3 10 ∧ clampSampleSize 5 3 10 ≤ 10) ∧
      clampSampleSize 5 3 10 = 5 :=
  ⟨(clampSampleSize_spec 5 3 10).1 (by decide),
   (clampSampleSize_spec 5 3 10).2 (by decide) (by decide)⟩

/-- Claim C8: `binomProb` degenerate inputs: out-of-range `k` gives 0; for
in-range `k`, `p ≤ 0` gives 1 exactly at `k = 0` and `p ≥ 1` gives 1 exactly
at `k = n`. -/
theorem binomProb_edge_cases (n k : Int) (p : ℚ) :
    (k < 0 ∨ k > n → binomProb n k p = 0) ∧
    (0 ≤ k → k ≤ n → p ≤ 0 → binomProb n k p = if k = 0 then 1 else 0) ∧
    (0 ≤ k → k ≤ n → p ≥ 1 → binomProb n k p = if k = n then 1 else 0) := by
  refine ⟨fun h => ?_, fun hk hkn hp => ?_, fun hk hkn hp => ?_⟩
  · simp only [binomProb, if_pos h]
  · have hout : ¬ (k < 0 ∨ k > n) := by omega
    have hp1 : ¬ (p ≥ 1) := by linarith
    simp only [binomProb, if_neg hout, if_pos (Or.inl hp), if_neg hp1]
  · have hout : ¬ (k < 0 ∨ k > n) := by omega
    simp only [binomProb, if_neg hout, if_pos (Or.inr hp), if_pos hp]

/-- Witness for C8 at `n = 3, k = 4, p = 1/2` (out-of-range count). -/
theorem binomProb_edge_witness : binomProb 3 4 (1/2) = 0 :=
  (binomProb_edge_cases 3 4 (1/2)).1 (Or.inr (by decide))

lemma sigSearch_exhausted (n : Int) (alpha p : ℚ) :
    ∀ fuel k : Nat, (∀ j : Nat, k ≤ j → j < k + fuel → ¬ (binomTail n (j : Int) p ≤ alpha)) →
      sigSearch n alpha p fuel k = n + 1 := by
  intro fuel
  induction fuel with
  | zero => intro k _; rfl
  | succ f ih =>
    intro k h
    have hk : ¬ (binomTail n (k : Int) p ≤ alpha) := h k le_rfl (by omega)
    rw [sigSearch, if_neg hk]
    exact ih (k + 1) (fun j hj1 hj2 => h j (by omega) (by omega))

lemma sigSearch_finds (n : Int) (alpha p : ℚ) :
    ∀ fuel k j : Nat, k ≤ j → j < k + fuel → binomTail n (j : Int) p ≤ alpha →
      (∀ i : Nat, i < j → ¬ (binomTail n (i : Int) p ≤ alpha)) →
      sigSearch n alpha p fuel k = (j : Int) := by
  intro fuel
  induction fuel with
  | zero => intro k j h1 h2 _ _; omega
  | succ f ih =>
    intro k j hkj hlt hj hmin
    by_cases hk : binomTail n (k : Int) p ≤ alpha
    · have hjk : j = k := by
        by_contra hne
        exact hmin k (by omega) hk
      rw [sigSearch, if_pos hk, hjk]
    · have hne : k ≠ j := fun he => hk (he ▸ hj)
      rw [sigSearch, if_neg hk]
      exact ih (k + 1) j (by omega) (by omega) hj hmin

/-- Claim C3: for `n > 0`, `getSignificanceThreshold n alpha p` returns the
smallest count `k ≤ n` whose binomial tail probability is at most `alpha`,
and `n + 1` when no such count exists; for `n ≤ 0` it returns 0. -/
theorem getSignificanceThreshold_spec (n : Int) (alpha p : ℚ) :
    (n ≤ 0 → getSignificanceThreshold n alpha p = 0) ∧
    (0 < n →
      (∀ k : Nat, (k : Int) ≤ n → binomTail n (k : Int) p ≤ alpha →
        (∀ j : Nat, j < k → ¬ (binomTail n (j : Int) p ≤ alpha)) →
        getSignificanceThreshold n alpha p = (k : Int)) ∧
      ((∀ k : Nat, (k : Int) ≤ n → ¬ (binomTail n (k : Int) p ≤ alpha)) →
        getSignificanceThreshold n alpha p = n + 1)) := by
  constructor
  · intro h
    rw [getSignificanceThreshold, if_pos h]
  · intro hn
    constructor
    · intro k hk htail hmin
      rw [getSignificanceThreshold, if_neg (by omega)]
      exact sigSearch_finds n alpha p (n.toNat + 1) 0 k (by omega) (by omega) htail hmin
    · intro hnone
      rw [getSignificanceThreshold, if_neg (by omega)]
      exact sigSearch_exhausted n alpha p (n.toNat + 1) 0
        (fun j _ hj => hnone j (by omega))

/-- Witness for C3 at `n = -3`: non-positive sample sizes yield threshold 0. -/
theorem getSignificanceThreshold_spec_witness :
    getSignificanceThreshold (-3) 1 (1/2) = 0 :=
  (getSignificanceThreshold_spec (-3) 1 (1/2)).1 (by decide)

lemma getThresholdByType_factory_eq (n : Int) :
    getThresholdByType "工厂样品" n =
      (if clampSampleSize n FACTORY_MIN_N FACTORY_MAX_N ≤ FACTORY_MIN_N then FACTORY_BASE_THRESHOLD
       else (FACTORY_DIFF_THRESHOLD_TABLE.lookup (clampSampleSize n FACTORY_MIN_N FACTORY_MAX_N)).getD
         ((FACTORY_DIFF_THRESHOLD_TABLE.lookup FACTORY_MAX_N).getD FACTORY_BASE_THRESHOLD)) := rfl

lemma getThresholdByType_alt_eq (s : String) (hs : ¬ s = "工厂样品") (n : Int) :
    getThresholdByType s n =
      (if clampSampleSize n ALT_MIN_N ALT_MAX_N ≤ ALT_MIN_N then ALT_BASE_MAX_ALLOWED + 1
       else ((ALT_SIMILARITY_MAX_TABLE.lookup (clampSampleSize n ALT_MIN_N ALT_MAX_N)).getD
         ((ALT_SIMILARITY_MAX_TABLE.lookup ALT_MAX_N).getD ALT_BASE_MAX_ALLOWED)) + 1) := by
  unfold getThresholdByType
  rw [if_neg hs]

lemma clampSampleSize_of_mem (n lo hi : Int) (h1 : lo ≤ n) (h2 : n ≤ hi) :
    clampSampleSize n lo hi = n := by
  unfold clampSampleSize
  split_ifs <;> omega

/-- Claim C6: for each fixed test type, `getThresholdByType` is monotonically
non-decreasing in the sample size across that test type's table domain. -/
theorem getThresholdByType_monotone (s : String) (n1 n2 : Int)
    (h1 : minSampleLimit s ≤ n1) (h12 : n1 ≤ n2) (h2 : n2 ≤ maxSampleLimit s) :
    getThresholdByType s n1 ≤ getThresholdByType s n2 := by
  by_cases hs : s = "工厂样品"
  · subst hs
    have e1 : minSampleLimit "工厂样品" = 36 := rfl
    have e2 : maxSampleLimit "工厂样品" = 54 := rfl
    rw [e1] at h1
    rw [e2] at h2
    have hu : n1 ≤ 54 := le_trans h12 h2
    have hl : 36 ≤ n2 := le_trans h1 h12
    rw [getThresholdByType_factory_eq n1, getThresholdByType_factory_eq n2,
      clampSampleSize_of_mem n1 FACTORY_MIN_N FACTORY_MAX_N h1 hu,
      clampSampleSize_of_mem n2 FACTORY_MIN_N FACTORY_MAX_N hl h2]
    interval_cases n1 <;> interval_cases n2 <;> decide
  · have e1 : minSampleLimit s = 42 := by
      unfold minSampleLimit; rw [if_neg hs]; rfl
    have e2 : maxSampleLimit s = 54 := by
      unfold maxSampleLimit; rw [if_neg hs]; rfl
    rw [e1] at h1
    rw [e2] at h2
    have hu : n1 ≤ 54 := le_trans h12 h2
    have hl : 42 ≤ n2 := le_trans h1 h12
    rw [getThresholdByType_alt_eq s hs n1, getThresholdByType_alt_eq s hs n2,
      clampSampleSize_of_mem n1 ALT_MIN_N ALT_MAX_N h1 hu,
      clampSampleSize_of_mem n2 ALT_MIN_N ALT_MAX_N hl h2]
    interval_cases n1 <;> interval_cases n2 <;> decide

/-- Witness for C6: factory thresholds at sample sizes 37 and 40. -/
theorem getThresholdByType_monotone_witness :
    getThresholdByType "工厂样品" 37 ≤ getThresholdByType "工厂样品" 40 :=
  getThresholdByType_monotone "工厂样品" 37 40 (by decide) (by decide) (by decide)

/-- Claim C10: every threshold lies in `[18, 24]` for the factory difference
test and in `[17, 23]` for any other selector string, and whenever the clamped
sample size is strictly above the domain minimum the corresponding table
lookup succeeds, so the defensive `??` fallbacks are unreachable. -/
theorem getThresholdByType_range (s : String) (n : Int) :
    (s = "工厂样品" →
      18 ≤ getThresholdByType s n ∧ getThresholdByType s n ≤ 24 ∧
      (FACTORY_MIN_N < clampSampleSize n FACTORY_MIN_N FACTORY_MAX_N →
        (FACTORY_DIFF_THRESHOLD_TABLE.lookup
          (clampSampleSize n FACTORY_MIN_N FACTORY_MAX_N)).isSome = true)) ∧
    (s ≠ "工厂样品" →
      17 ≤ getThresholdByType s n ∧ getThresholdByType s n ≤ 23 ∧
      (ALT_MIN_N < clampSampleSize n ALT_MIN_N ALT_MAX_N →
        (ALT_SIMILARITY_MAX_TABLE.lookup
          (clampSampleSize n ALT_MIN_N ALT_MAX_N)).isSome = true)) := by
  constructor
  · intro hs
    subst hs
    rw [getThresholdByType_factory_eq]
    generalize hc : clampSampleSize n FACTORY_MIN_N FACTORY_MAX_N = m
    have hb1 : 36 ≤ m := by
      rw [← hc]; unfold clampSampleSize FACTORY_MIN_N FACTORY_MAX_N; split_ifs <;> omega
    have hb2 : m ≤ 54 := by
      rw [← hc]; unfold clampSampleSize FACTORY_MIN_N FACTORY_MAX_N; split_ifs <;> omega
    interval_cases m <;> decide
  · intro hs
    rw [getThresholdByType_alt_eq s hs]
    generalize hc : clampSampleSize n ALT_MIN_N ALT_MAX_N = m
    have hb1 : 42 ≤ m := by
      rw [← hc]; unfold clampSampleSize ALT_MIN_N ALT_MAX_N; split_ifs <;> omega
    have hb2 : m ≤ 54 := by
      rw [← hc]; unfold clampSampleSize ALT_MIN_N ALT_MAX_N; split_ifs <;> omega
    interval_cases m <;> decide

/-- Witness for C10 at the factory type and sample size 40. -/
theorem getThresholdByType_range_witness :
    18 ≤ getThresholdByType "工厂样品" 40 ∧ getThresholdByType "工厂样品" 40 ≤ 24 :=
  ⟨((getThresholdByType_range "工厂样品" 40).1 rfl).1,
   ((getThresholdByType_range "工厂样品" 40).1 rfl).2.1⟩

/-- A concrete record used by the report-builder witnesses. -/
def sampleRecord : StatRecord :=
  ⟨"rec1", "测试1", GroupKey.A1, "A", "A", none, none, none, none⟩

/-- Concrete report parameters used by the report-builder witnesses. -/
def sampleParams : StatReportParams :=
  ⟨[sampleRecord], "备选测试", 0, "", "", ""⟩

/-- Claim C1: for a non-empty record list the verdict's `pass` is
`!countShortage && !significant`, where `significant` equals
`correctCount ≥ threshold` when `totalPeople ≥ threshold`, is `false` when
`totalPeople < threshold`, and `countShortage` holds iff the observed total is
below the expected total. -/
theorem buildStatReport_verdict (ps : StatReportParams)
    (h : ps.selectedStatRecords ≠ []) :
    (buildStatReport ps).pass =
      some (!countShortage ps.selectedStatRecords ps.statTestType ps.statGroupSize &&
        !significant ps.selectedStatRecords ps.statTestType ps.statGroupSize) ∧
    (reportThreshold ps.selectedStatRecords ps.statTestType ps.statGroupSize ≤
        totalPeople ps.selectedStatRecords →
      significant ps.selectedStatRecords ps.statTestType ps.statGroupSize =
        decide (reportThreshold ps.selectedStatRecords ps.statTestType ps.statGroupSize ≤
          correctCount ps.selectedStatRecords)) ∧
    (totalPeople ps.selectedStatRecords <
        reportThreshold ps.selectedStatRecords ps.statTestType ps.statGroupSize →
      significant ps.selectedStatRecords ps.statTestType ps.statGroupSize = false) ∧
    (countShortage ps.selectedStatRecords ps.statTestType ps.statGroupSize = true ↔
      totalPeople ps.selectedStatRecords <
        expectedTotalByRule ps.statTestType ps.statGroupSize) := by
  refine ⟨?_, ?_, ?_, ?_⟩
  · have hl : ¬ ps.selectedStatRecords.length = 0 := by
      simpa [List.length_eq_zero] using h
    unfold buildStatReport reportPass passByRule
    rw [if_neg hl]
  · intro hge
    have hx : ¬ (totalPeople ps.selectedStatRecords <
        reportThreshold ps.selectedStatRecords ps.statTestType ps.statGroupSize) :=
      not_lt.mpr hge
    simp [significant, insufficient, hx]
  · intro hlt
    simp [significant, insufficient, hlt]
  · have ht : (0 : Int) ≤ totalPeople ps.selectedStatRecords := Int.natCast_nonneg _
    unfold countShortage
    simp only [Bool.and_eq_true, decide_eq_true_eq]
    exact ⟨fun hh => hh.2, fun hh => ⟨by omega, hh⟩⟩

/-- Witness for C1 at concrete parameters with one record. -/
theorem buildStatReport_verdict_witness :
    (buildStatReport sampleParams).pass =
      some (!countShortage sampleParams.selectedStatRecords sampleParams.statTestType
          sampleParams.statGroupSize &&
        !significant sampleParams.selectedStatRecords sampleParams.statTestType
          sampleParams.statGroupSize) :=
  (buildStatReport_verdict sampleParams (by decide)).1

/-- Claim C4: `buildStatReport` returns an error exactly on an empty record
list (and then no verdict), and on a non-empty list it returns a successful
result carrying the verdict and status fields. -/
theorem buildStatReport_error_iff (ps : StatReportParams) :
    ((buildStatReport ps).error.isSome = true ↔ ps.selectedStatRecords = []) ∧
    (ps.selectedStatRecords = [] → (buildStatReport ps).pass = none) ∧
    (ps.selectedStatRecords ≠ [] →
      (buildStatReport ps).error = none ∧
      (buildStatReport ps).pass =
        some (reportPass ps.selectedStatRecords ps.statTestType ps.statGroupSize) ∧
      (buildStatReport ps).status.isSome = true) := by
  by_cases he : ps.selectedStatRecords.length = 0
  · have he' : ps.selectedStatRecords = [] := List.length_eq_zero.mp he
    unfold buildStatReport
    rw [if_pos he]
    exact ⟨by simp [he'], fun _ => rfl, fun hne => absurd he' hne⟩
  · have he' : ¬ ps.selectedStatRecords = [] := fun hx => he (by simp [hx])
    unfold buildStatReport
    rw [if_neg he]
    exact ⟨by simp [he'], fun hx => absurd hx he', fun _ => ⟨rfl, rfl, rfl⟩⟩

/-- Witness for C4: the one-record input yields no error. -/
theorem buildStatReport_error_iff_witness :
    (buildStatReport sampleParams).error = none :=
  ((buildStatReport_error_iff sampleParams).2.2 (by decide)).1

/-- Claim C5: for a known test-type rule, the expected total is
`max(0, max(userGroupSize, rule.groupSize)) * 6` and the threshold base is
`max(expectedTotal, observedTotal)` clamped into the chosen test type's table
domain bounds. -/
theorem buildStatReport_expected_and_base (records : List StatRecord) (t : String)
    (g : Int) (rule : TestTypeRule) (hne : records ≠ [])
    (hr : TEST_TYPE_RULES t = some rule) :
    expectedTotalByRule t g = max 0 (max g rule.groupSize) * 6 ∧
    thresholdBase records t g =
      clampSampleSize (max (expectedTotalByRule t g) (totalPeople records))
        (minSampleLimit t) (maxSampleLimit t) := by
  have h6 : 6 ≤ rule.groupSize := by
    unfold TEST_TYPE_RULES at hr
    split_ifs at hr
    · injection hr with hh
      rw [← hh]
      decide
    · injection hr with hh
      rw [← hh]
  have hep : 6 ≤ expectedPerGroup t g := by
    have := le_max_right g rule.groupSize
    unfold expectedPerGroup
    rw [hr]
    simpa using le_trans h6 this
  have hpos : 0 < expectedTotalByRule t g := by
    unfold expectedTotalByRule
    rw [max_eq_right (by linarith)]
    linarith
  refine ⟨?_, ?_⟩
  · unfold expectedTotalByRule expectedPerGroup
    rw [hr]
    rfl
  · unfold thresholdBase baseBeforeClamp
    rw [if_pos hpos]

/-- Witness for C5 at the default similarity rule with one record. -/
theorem buildStatReport_expected_and_base_witness :
    expectedTotalByRule "备选测试" 0 = max 0 (max 0 (7 : Int)) * 6 ∧
    thresholdBase [sampleRecord] "备选测试" 0 =
      clampSampleSize (max (expectedTotalByRule "备选测试" 0) (totalPeople [sampleRecord]))
        (minSampleLimit "备选测试") (maxSampleLimit "备选测试") :=
  buildStatReport_expected_and_base [sampleRecord] "备选测试" 0
    ⟨7, 5/100, "备选测试 (α=0.05)", 2/10⟩ (by decide) rfl

/-- Claim C9 counterexample: for the unknown selector `"其他类型"` the rule
lookup contributes a group-size floor of 0, not the default rule's minimum 7,
so the default rule's minimum group size does not apply to the report
computation. -/
theorem unknown_type_groupsize_counterexample :
    expectedPerGroup "其他类型" 0 = 0 ∧
    expectedPerGroup DEFAULT_STAT_TEST_TYPE 0 = 7 ∧
    expectedPerGroup "其他类型" 0 ≠ expectedPerGroup DEFAULT_STAT_TEST_TYPE 0 := by
  refine ⟨rfl, rfl, by decide⟩

/-- Claim C9 (amended): a non-canonical selector falls back to the similarity
threshold table and significance level 0.05, but the rule lookup contributes
no group-size minimum: the effective per-group size is `max g 0`. -/
theorem unknown_type_fallback (s : String) (h1 : s ≠ "备选测试")
    (h2 : s ≠ "工厂样品") :
    (∀ n : Int, getThresholdByType s n = getThresholdByType DEFAULT_STAT_TEST_TYPE n) ∧
    getAlphaByType s = 5/100 ∧
    (∀ g : Int, expectedPerGroup s g = max g 0) := by
  have hnone : TEST_TYPE_RULES s = none := by
    unfold TEST_TYPE_RULES
    rw [if_neg h1, if_neg h2]
  refine ⟨fun n => ?_, ?_, fun g => ?_⟩
  · rw [getThresholdByType_alt_eq s h2 n,
      getThresholdByType_alt_eq DEFAULT_STAT_TEST_TYPE (by decide) n]
  · simp [getAlphaByType, hnone]
  · simp [expectedPerGroup, hnone]

/-- Witness for the amended C9 at the selector `"其他类型"`. -/
theorem unknown_type_fallback_witness :
    getThresholdByType "其他类型" 48 = getThresholdByType DEFAULT_STAT_TEST_TYPE 48 ∧
    getAlphaByType "其他类型" = 5/100 :=
  ⟨(unknown_type_fallback "其他类型" (by decide) (by decide)).1 48,
   (unknown_type_fallback "其他类型" (by decide) (by decide)).2.1⟩
